import Mathlib

/-! Verification of the chocofi keyboard-case generation scripts.

The repository builds keyboard-case solids in FreeCAD from a fixed board
outline table (`SEGMENTS`), shared dimensional parameters (`params.py`) and
component placement tables, then exports them as STEP files.  This file is a
shallow embedding of the parts of those scripts that the verified properties
mention:

* The outline table and the wire assembly loop of `helpers.build_pcb_wire`
  are embedded exactly, with coordinates kept in integer thousandths of a
  millimetre (every coordinate in the source has at most three decimals, so
  this representation is exact).  The geometry-kernel call
  `Part.Arc(p1, pm, p2)` fails precisely on a degenerate point triple
  (collinear or repeated points); arc construction is modelled as returning
  `none` exactly in that case.
* A planar face `Part.Face(wire.makeOffset2D(r))` of the closed board
  outline is modelled as the dilation by radius `r` of the planar region `K`
  enclosed by the wire; extrusion, translation, z-axis turning and boolean
  operations on solids are modelled set-theoretically over `ℝ`.
-/

/-- Planar point with coordinates in thousandths of a millimetre (exact
integer image of the decimal-millimetre coordinates in the source). -/
abbrev Pt : Type := ℤ × ℤ

/-- Mirror of `FreeCAD.Vector(x, -y, 0)`: the scripts flip the KiCad Y axis
when building FreeCAD points. -/
def flipY (p : Pt) : Pt := (p.1, -p.2)

/-- Squared distance between two points, in squared thousandths of a
millimetre.  `p1.distanceToPoint(p2) > 0.001` (millimetres) in the source is
exactly `distSq p1 p2 > 1` in these units. -/
def distSq (p q : Pt) : ℤ := (p.1 - q.1) ^ 2 + (p.2 - q.2) ^ 2

/-- Degeneracy test for a three-point arc: the cross product of the two
chords vanishes iff the three points are collinear (or not pairwise
distinct), which is exactly the condition under which the kernel call
`Part.Arc(p1, pm, p2)` fails to construct a circular arc. -/
def collinear (p m q : Pt) : Prop :=
  (m.1 - p.1) * (q.2 - p.2) - (m.2 - p.2) * (q.1 - p.1) = 0

instance (p m q : Pt) : Decidable (collinear p m q) := by
  unfold collinear; infer_instance

/-- Entry of the `SEGMENTS` outline table.  A `line` entry stores
`(start, end)`; an `arc` entry stores `(start, end, mid)` in the tuple order
used by the source table (`seg[1]`, `seg[2]`, `seg[3]`). -/
inductive Seg : Type
  | line (a b : Pt)
  | arc (a b m : Pt)
deriving DecidableEq

/-- Edge produced by the wire-building loop: either `Part.makeLine(p1, p2)`
or `Part.Arc(p1, pm, p2).toShape()` (argument order of the source calls). -/
inductive Edge : Type
  | line (p q : Pt)
  | arc (p m q : Pt)
deriving DecidableEq

/-- Model of `Part.Arc(p1, pm, p2).toShape()`: the kernel raises exactly on
a degenerate (collinear or repeated) point triple, modelled by `none`. -/
def arcToShape (p1 pm p2 : Pt) : Option Edge :=
  if collinear p1 pm p2 then none else some (Edge.arc p1 pm p2)

/-- Edges appended for one table entry by the loop body of
`helpers.build_pcb_wire`: a `line` entry appends `Part.makeLine(p1, p2)`
when the endpoints are more than 0.001 mm apart and nothing otherwise; an
`arc` entry appends the kernel arc when its construction succeeds and
otherwise falls back to the same guarded straight line. -/
def edgesOf (s : Seg) : List Edge :=
  match s with
  | Seg.line a b =>
      if distSq (flipY a) (flipY b) > 1 then [Edge.line (flipY a) (flipY b)] else []
  | Seg.arc a b m =>
      match arcToShape (flipY a) (flipY m) (flipY b) with
      | some e => [e]
      | none =>
          if distSq (flipY a) (flipY b) > 1 then
            [Edge.line (flipY a) (flipY b)]
          else []

/-- Mirror of `helpers.build_pcb_wire`: the loop accumulates edges over the
table in order; the resulting wire is modelled by its edge list. -/
def build_pcb_wire (segs : List Seg) : List Edge :=
  segs.foldl (fun es s => es ++ edgesOf s) []

/-- Intended edge of a table entry, ignoring the degeneracy guard and the
arc fallback: the geometry each entry is meant to contribute. -/
def intendedEdge (s : Seg) : Edge :=
  match s with
  | Seg.line a b => Edge.line (flipY a) (flipY b)
  | Seg.arc a b m => Edge.arc (flipY a) (flipY m) (flipY b)

/-- Guard data of one entry: a `line` entry is kept by the 0.001 mm filter
and an `arc` entry constructs without hitting the exception branch. -/
def segIntact (s : Seg) : Bool :=
  match s with
  | Seg.line a b => distSq (flipY a) (flipY b) > 1
  | Seg.arc a b m => ¬ collinear (flipY a) (flipY m) (flipY b)

/-- Start point of a table entry (`seg[1]` in the source tuples). -/
def segStart (s : Seg) : Pt :=
  match s with
  | Seg.line a _ => a
  | Seg.arc a _ _ => a

/-- End point of a table entry (`seg[2]` in the source tuples). -/
def segEnd (s : Seg) : Pt :=
  match s with
  | Seg.line _ b => b
  | Seg.arc _ b _ => b

/-- Entry of the table with the Y axis flipped, as `build_pcb_wire` flips
every point it reads. -/
def flipSeg (s : Seg) : Seg :=
  match s with
  | Seg.line a b => Seg.line (flipY a) (flipY b)
  | Seg.arc a b m => Seg.arc (flipY a) (flipY b) (flipY m)

/-- Closed-loop check for an outline table: each entry starts at the end of
the previous entry and the last entry ends at the first entry's start. -/
def isClosedLoop (segs : List Seg) : Bool :=
  match segs with
  | [] => false
  | s0 :: _ =>
      (segs.zip ((segs.drop 1) ++ [s0])).all fun ab => segEnd ab.1 == segStart ab.2

/-- The `SEGMENTS` board outline table (KiCad `Edge.Cuts`), as written
identically in `top.py` and `bottom.py` and imported by `helpers.py` from
`pcb_data`; coordinates in thousandths of a millimetre. -/
def SEGMENTS : List Seg := [
  .line (112910, 44495) (112927, 49452),
  .arc (112927, 49452) (112427, 49952) (112781, 49805),
  .line (112427, 49952) (95397, 49952),
  .arc (95397, 49952) (94897, 50452) (95044, 50098),
  .line (94897, 50452) (94895, 61466),
  .arc (94895, 61466) (94395, 61966) (94749, 61819),
  .line (94395, 61966) (77299, 61921),
  .arc (77299, 61921) (76842, 62378) (76976, 62055),
  .line (76842, 62378) (76893, 76653),
  .line (76893, 76653) (76893, 93722),
  .line (76893, 93722) (76893, 110689),
  .line (76893, 110689) (76893, 112061),
  .arc (76893, 112061) (77553, 112721) (77086, 112528),
  .line (77553, 112721) (94012, 112721),
  .arc (94012, 112721) (94673, 112061) (94479, 112528),
  .line (94673, 112061) (94673, 110689),
  .line (94673, 110689) (94724, 101417),
  .arc (94724, 101417) (95333, 100808) (94902, 100986),
  .line (95333, 100808) (112504, 100808),
  .arc (112504, 100808) (113175, 101240) (112903, 100925),
  .line (113175, 101240) (124899, 121052),
  .arc (124899, 121052) (125254, 121186) (125064, 121151),
  .line (125254, 121186) (143034, 121205),
  .line (143034, 121205) (160357, 125929),
  .line (160357, 125929) (174169, 133905),
  .arc (174169, 133905) (175648, 133600) (174945, 133929),
  .line (175648, 133600) (188094, 111959),
  .line (188094, 111959) (188000, 54250),
  .arc (188000, 54250) (187500, 53750) (187854, 53896),
  .line (187500, 53750) (167210, 53760),
  .arc (167210, 53760) (166730, 53400) (166910, 53660),
  .arc (166730, 53400) (166240, 53000) (166557, 53113),
  .line (166240, 53000) (149173, 53014),
  .arc (149173, 53014) (148673, 52514) (148820, 52868),
  .line (148673, 52514) (148673, 51014),
  .arc (148673, 51014) (148173, 50514) (148527, 50660),
  .line (148173, 50514) (131190, 50498),
  .arc (131190, 50498) (130690, 49998) (130836, 50352),
  .line (130690, 49998) (130690, 44481),
  .arc (130690, 44481) (130190, 43981) (130544, 44128),
  .line (130190, 43981) (113410, 43995),
  .arc (113410, 43995) (112910, 44495) (113056, 44141)]

/-- Outline wire used by `pcb_model.build_pcb` via `build_pcb_wire()`. -/
def pcbModelWire : List Edge := build_pcb_wire SEGMENTS

/-- Outline wire used by `top_case_model.build_top_case` via
`build_pcb_wire()`. -/
def topCaseModelWire : List Edge := build_pcb_wire SEGMENTS

/-- Outline wire used by `bottom_case_model.build_bottom_case` via
`build_pcb_wire()`. -/
def bottomCaseModelWire : List Edge := build_pcb_wire SEGMENTS

/-! Shared dimensional parameters of `params.py`, in millimetres. -/

noncomputable section

/-- PCB thickness (`params.PCB_THICKNESS`). -/
def PCB_THICKNESS : ℝ := 1.6

/-- Case wall thickness (`params.WALL_THICKNESS`). -/
def WALL_THICKNESS : ℝ := 2.2

/-- Gap between PCB edge and inner wall (`params.TOLERANCE`). -/
def TOLERANCE : ℝ := 0.5

/-- Bottom case floor thickness (`params.FLOOR_THICKNESS`). -/
def FLOOR_THICKNESS : ℝ := 1.2

/-- Bottom case wall height (`params.BOTTOM_WALL_HEIGHT`). -/
def BOTTOM_WALL_HEIGHT : ℝ := 5.0

/-- Standoff post height (`params.STANDOFF_HEIGHT`). -/
def STANDOFF_HEIGHT : ℝ := 4.5

/-- Standoff post outer radius (`params.STANDOFF_OUTER_R`). -/
def STANDOFF_OUTER_R : ℝ := 3.5

/-- Heat-set insert hole diameter (`params.INSERT_HOLE_D`). -/
def INSERT_HOLE_D : ℝ := 3.2

/-- Heat-set insert hole depth (`params.INSERT_HOLE_DEPTH`). -/
def INSERT_HOLE_DEPTH : ℝ := 3.0

/-- Snap-fit ridge width (`params.RIDGE_WIDTH`). -/
def RIDGE_WIDTH : ℝ := 1.2

/-- Snap-fit ridge height (`params.RIDGE_HEIGHT`). -/
def RIDGE_HEIGHT : ℝ := 2.0

/-- Top plate thickness (`params.TOP_PLATE_THICKNESS`). -/
def TOP_PLATE_THICKNESS : ℝ := 1.5

/-- Top case lip height (`params.TOP_LIP_HEIGHT`). -/
def TOP_LIP_HEIGHT : ℝ := 2.0

/-- Switch plate cutout side length (`params.SWITCH_PLATE_CUTOUT`). -/
def SWITCH_PLATE_CUTOUT : ℝ := 13.8

/-- Screw clearance hole diameter (`params.SCREW_CLEARANCE_D`). -/
def SCREW_CLEARANCE_D : ℝ := 2.4

/-- Planar point in millimetres. -/
abbrev P2 : Type := ℝ × ℝ

/-- Spatial point in millimetres, components `(x, y, z)`. -/
abbrev P3 : Type := ℝ × ℝ × ℝ

/-- Model of `Part.Face(pcb_wire.makeOffset2D(r))`: the planar region
enclosed by the outward offset of the closed board outline by `r` is the
dilation by radius `r` of the region `K` enclosed by the outline itself.
All faces the case scripts build are such offsets of the one fixed outline,
so they are all instances of this definition at different radii. -/
def offsetRegion (K : Set P2) (r : ℝ) : Set P2 :=
  {p | ∃ q ∈ K, (p.1 - q.1) ^ 2 + (p.2 - q.2) ^ 2 ≤ r ^ 2}

/-- Model of `face.extrude(FreeCAD.Vector(0, 0, h))`: the prism over the
face between `z = 0` and `z = h` (the source also extrudes with negative
`h`, sweeping downward, hence the `min`/`max`). -/
def extrudeZ (f : Set P2) (h : ℝ) : Set P3 :=
  {p | (p.1, p.2.1) ∈ f ∧ min 0 h ≤ p.2.2 ∧ p.2.2 ≤ max 0 h}

/-- Model of `shape.translate(FreeCAD.Vector v)`: the shifted copy of `s`,
written as the preimage under the inverse shift. -/
def translateV (v : P3) (s : Set P3) : Set P3 :=
  {p | (p.1 - v.1, p.2.1 - v.2.1, p.2.2 - v.2.2) ∈ s}

/-- Cylinder produced by `Part.makeCylinder(r, h, pos)`, recorded by its
defining parameters; its axis is the vertical line through `base`. -/
structure Cylinder where
  radius : ℝ
  height : ℝ
  base : P3

/-- Model of `Part.makeCylinder(r, h, pos)`. -/
def makeCylinder (r h : ℝ) (v : P3) : Cylinder := ⟨r, h, v⟩

/-- Point of the XY plane crossed by a cylinder's vertical axis. -/
def Cylinder.axisXY (c : Cylinder) : P2 := (c.base.1, c.base.2.1)

/-- Mirror of `helpers.make_hole`: a cylindrical through-hole at KiCad
coordinates `(x, y)` (Y flipped), 1 mm of overshoot on each end. -/
def make_hole (x y z_base height diameter : ℝ) : Cylinder :=
  makeCylinder (diameter / 2) (height + 2) (x, -y, z_base - 1)

/-- Angle conversion of `math.radians` and of FreeCAD's degree arguments. -/
def degToRad (a : ℝ) : ℝ := a * Real.pi / 180

/-- Turn of a spatial point about the Z axis through the origin by `θ`
radians. -/
def rotZ (θ : ℝ) (p : P3) : P3 :=
  (Real.cos θ * p.1 - Real.sin θ * p.2.1,
   Real.sin θ * p.1 + Real.cos θ * p.2.1,
   p.2.2)

/-- Model of `shape.rotate(Vector(0,0,0), Vector(0,0,1), ang)` with `ang`
in degrees: the turned copy of `s`, written as the preimage under the
inverse turn. -/
def rotateZdeg (ang : ℝ) (s : Set P3) : Set P3 :=
  {p | rotZ (degToRad (-ang)) p ∈ s}

/-- Model of `Part.makeBox(lx, ly, lz, v)`: an axis-aligned box with the
given edge lengths whose least corner is `v`. -/
def makeBox (lx ly lz : ℝ) (v : P3) : Set P3 :=
  {p | v.1 ≤ p.1 ∧ p.1 ≤ v.1 + lx ∧
       v.2.1 ≤ p.2.1 ∧ p.2.1 ≤ v.2.1 + ly ∧
       v.2.2 ≤ p.2.2 ∧ p.2.2 ≤ v.2.2 + lz}

open Classical in
/-- Mirror of `helpers.make_plate_cutout`: an XY-centred square box (the
source binds `half = size / 2` and corners the box at `(-half, -half)`)
made at the origin, turned by `-rot` degrees about the origin when
`rot ≠ 0`, then moved to the KiCad position `(x, -y)`. -/
def make_plate_cutout (x y rot z_base height size : ℝ) : Set P3 :=
  translateV (x, -y, 0)
    (if rot ≠ 0 then
      rotateZdeg (-rot)
        (makeBox size size (height + 2) (-(size / 2), -(size / 2), z_base - 1))
    else
      makeBox size size (height + 2) (-(size / 2), -(size / 2), z_base - 1))

/-- Turn of a solid about the vertical axis through `c` by `ang` degrees:
move `c` to the origin, turn, move back. -/
def rotateAboutZ (c : P3) (ang : ℝ) (s : Set P3) : Set P3 :=
  translateV c (rotateZdeg ang (translateV (-c.1, -c.2.1, -c.2.2) s))

/-- Axis-aligned square box of side `size` centred at the planar point `c`,
spanning `z0 ≤ z ≤ z1`. -/
def centeredBox (c : P2) (size z0 z1 : ℝ) : Set P3 :=
  {p | c.1 - size / 2 ≤ p.1 ∧ p.1 ≤ c.1 + size / 2 ∧
       c.2 - size / 2 ≤ p.2.1 ∧ p.2.1 ≤ c.2 + size / 2 ∧
       z0 ≤ p.2.2 ∧ p.2.2 ≤ z1}

/-- Switch aperture as the claim describes it: a square box of side
`SWITCH_PLATE_CUTOUT` centred at `(sx, -sy)`, turned by `-rot` degrees
about its own centre, spanning 1 mm below the plate bottom (`z = 0`) to
1 mm above its top (`z = TOP_PLATE_THICKNESS`). -/
def switchApertureSpec (sx sy rot : ℝ) : Set P3 :=
  rotateAboutZ (sx, -sy, 0) (-rot)
    (centeredBox (sx, -sy) SWITCH_PLATE_CUTOUT (-1) (TOP_PLATE_THICKNESS + 1))

/-- Mirror of the switch-cutout loop of `top_case_model.build_top_case`:
one `make_plate_cutout` is subtracted per entry of the switch table. -/
def switchCutLoop (base : Set P3) (tbl : List (ℝ × ℝ × ℝ)) : Set P3 :=
  tbl.foldl
    (fun s e =>
      s \ make_plate_cutout e.1 e.2.1 e.2.2 0 TOP_PLATE_THICKNESS SWITCH_PLATE_CUTOUT)
    base

/-- Mirror of `helpers.transform_local_to_global`: footprint-local
coordinates to global KiCad coordinates. -/
def transform_local_to_global (lx ly fp_x fp_y fp_rot_deg : ℝ) : ℝ × ℝ :=
  let rad := degToRad fp_rot_deg
  (fp_x + lx * Real.cos rad - ly * Real.sin rad,
   fp_y + lx * Real.sin rad + ly * Real.cos rad)

namespace BottomCase

/-- Top of the bottom case walls (`z_walls_top = -PCB_THICKNESS`). -/
def z_walls_top : ℝ := -PCB_THICKNESS

/-- Top of the bottom case floor. -/
def z_floor_top : ℝ := z_walls_top - BOTTOM_WALL_HEIGHT

/-- Bottom of the bottom case floor. -/
def z_floor_bottom : ℝ := z_floor_top - FLOOR_THICKNESS

/-- Offset radius of the inner profile (`pcb_wire.makeOffset2D(TOLERANCE)`). -/
def innerOffset : ℝ := TOLERANCE

/-- Offset radius of the outer profile
(`pcb_wire.makeOffset2D(TOLERANCE + WALL_THICKNESS)`). -/
def outerOffset : ℝ := TOLERANCE + WALL_THICKNESS

/-- Face of the inner profile, for outline region `K`. -/
def inner_face (K : Set P2) : Set P2 := offsetRegion K innerOffset

/-- Face of the outer profile, for outline region `K`. -/
def outer_face (K : Set P2) : Set P2 := offsetRegion K outerOffset

/-- Floor slab: outer face extruded by `FLOOR_THICKNESS`, moved down to
`z_floor_bottom`. -/
def floor_solid (K : Set P2) : Set P3 :=
  translateV (0, 0, z_floor_bottom) (extrudeZ (outer_face K) FLOOR_THICKNESS)

/-- Wall ring face: `outer_face.cut(inner_face)`. -/
def wall_face (K : Set P2) : Set P2 := outer_face K \ inner_face K

/-- Wall solid: wall ring extruded by `BOTTOM_WALL_HEIGHT`, moved up to
`z_floor_top`. -/
def wall_solid (K : Set P2) : Set P3 :=
  translateV (0, 0, z_floor_top) (extrudeZ (wall_face K) BOTTOM_WALL_HEIGHT)

/-- Inner profile of the snap-fit ridge
(`pcb_wire.makeOffset2D(TOLERANCE + WALL_THICKNESS - RIDGE_WIDTH)`). -/
def ridge_inner_face (K : Set P2) : Set P2 :=
  offsetRegion K (TOLERANCE + WALL_THICKNESS - RIDGE_WIDTH)

/-- Ridge ring face: `outer_face.cut(ridge_inner_face)`. -/
def ridge_face (K : Set P2) : Set P2 := outer_face K \ ridge_inner_face K

/-- Ridge solid: ridge ring extruded by `RIDGE_HEIGHT`, sitting on the wall
top at `z_walls_top`. -/
def ridge_solid (K : Set P2) : Set P3 :=
  translateV (0, 0, z_walls_top) (extrudeZ (ridge_face K) RIDGE_HEIGHT)

/-- Fused bottom case body before standoffs and cutouts:
floor, walls and ridge. -/
def caseBody (K : Set P2) : Set P3 :=
  floor_solid K ∪ wall_solid K ∪ ridge_solid K

/-- Base height of the blind heat-set insert hole inside a standoff. -/
def insert_z : ℝ := z_floor_top + STANDOFF_HEIGHT - INSERT_HOLE_DEPTH

/-- Standoff post cylinder fused at mounting hole `(mx, my)` (KiCad
coordinates; the script flips Y itself when forming the position). -/
def standoffPost (mx my : ℝ) : Cylinder :=
  makeCylinder STANDOFF_OUTER_R STANDOFF_HEIGHT (mx, -my, z_floor_top)

/-- Blind heat-set insert hole cylinder cut at mounting hole `(mx, my)`. -/
def insertHole (mx my : ℝ) : Cylinder :=
  makeCylinder (INSERT_HOLE_D / 2) (INSERT_HOLE_DEPTH + 0.01) (mx, -my, insert_z)

end BottomCase

namespace TopCase

/-- Offset radius of the outer profile
(`pcb_wire.makeOffset2D(TOLERANCE + WALL_THICKNESS)`). -/
def outerOffset : ℝ := TOLERANCE + WALL_THICKNESS

/-- Offset radius of the inner profile (`pcb_wire.makeOffset2D(TOLERANCE)`). -/
def innerOffset : ℝ := TOLERANCE

/-- Face of the outer profile, for outline region `K`. -/
def outer_face (K : Set P2) : Set P2 := offsetRegion K outerOffset

/-- Face of the inner profile, for outline region `K`. -/
def inner_face (K : Set P2) : Set P2 := offsetRegion K innerOffset

/-- Plate solid: outer face extruded up by `TOP_PLATE_THICKNESS`
(plate bottom at `z = 0`, sitting on the PCB top). -/
def plate (K : Set P2) : Set P3 := extrudeZ (outer_face K) TOP_PLATE_THICKNESS

/-- Lip ring face: `outer_face.cut(inner_face)`. -/
def lip_face (K : Set P2) : Set P2 := outer_face K \ inner_face K

/-- Lip solid: lip ring extruded downward by `TOP_LIP_HEIGHT` from the
plate bottom. -/
def lip (K : Set P2) : Set P3 := extrudeZ (lip_face K) (-TOP_LIP_HEIGHT)

/-- Fused top case body before the switch and screw cutouts:
`plate.fuse(lip)`. -/
def caseBody (K : Set P2) : Set P3 := plate K ∪ lip K

/-- Screw clearance hole cut at mounting hole `(mx, my)`:
`make_hole(mx, my, 0, TOP_PLATE_THICKNESS, SCREW_CLEARANCE_D)`. -/
def screwHole (mx my : ℝ) : Cylinder :=
  make_hole mx my 0 TOP_PLATE_THICKNESS SCREW_CLEARANCE_D

end TopCase

end

/-! Model of the build script `build.py`. -/

/-- The three part-builder functions the build script calls. -/
inductive Builder : Type
  | pcb
  | topCase
  | bottomCase
deriving DecidableEq

/-- The `parts` table of `build.py`: entries
`(name, builder, color, transparency)`. -/
def buildParts : List (String × Builder × (ℚ × ℚ × ℚ) × ℕ) :=
  [("Chocofi_PCB", Builder.pcb, (1/10, 11/20, 3/20), 0),
   ("Chocofi_TopCase", Builder.topCase, (3/10, 1/2, 17/20), 30),
   ("Chocofi_BottomCase", Builder.bottomCase, (17/20, 1/2, 1/5), 30)]

/-- Document objects created by the build loop: one `Part::Feature` object
per entry of the parts table, in order. -/
def docObjectNames : List String := buildParts.map fun e => e.1

/-- STEP files written by the export loop: one `Part.export` call per
document object, writing `obj.Name ++ ".step"`. -/
def exportedSteps : List String := docObjectNames.map fun n => n ++ ".step"

/-- Board outline wire each builder constructs its profile from. -/
def builderOutline : Builder → List Edge
  | Builder.pcb => pcbModelWire
  | Builder.topCase => topCaseModelWire
  | Builder.bottomCase => bottomCaseModelWire

/-! Helper lemmas shared by the claim theorems. -/

lemma rotateZdeg_zero (s : Set P3) : rotateZdeg 0 s = s := by
  ext p
  simp [rotateZdeg, degToRad, rotZ]

/-! Theorems settling the claims. -/

/-- C6: the `SEGMENTS` board outline table is one closed loop — every entry
starts exactly where the previous entry ends, the last entry ends at the
first entry's start, the loop is still closed after the Y flip applied when
the wire is assembled, and the PCB, top case and bottom case builders all
construct their profile from this same outline wire. -/
theorem segments_closed_loop :
    isClosedLoop SEGMENTS = true ∧
    isClosedLoop (SEGMENTS.map flipSeg) = true ∧
    pcbModelWire = build_pcb_wire SEGMENTS ∧
    topCaseModelWire = build_pcb_wire SEGMENTS ∧
    bottomCaseModelWire = build_pcb_wire SEGMENTS :=
  ⟨by decide, by decide, rfl, rfl, rfl⟩

/-- C7: on the repository's fixed `SEGMENTS` table the wire-building loop
takes no alternative path — every line entry passes the 0.001 mm degeneracy
filter, every arc entry constructs without the exception fallback, and the
assembled wire carries exactly the intended edge of each table entry in
order. -/
theorem pipeline_no_fallback :
    SEGMENTS.all segIntact = true ∧
    build_pcb_wire SEGMENTS = SEGMENTS.map intendedEdge :=
  ⟨by decide, by decide⟩

/-- C10: the wire builder never fails on degenerate entries — a line entry
whose endpoints are within 0.001 mm contributes no edge, and an arc entry
whose kernel arc construction fails (degenerate point triple) is replaced
by the straight line between its endpoints, itself omitted when those
endpoints are within 0.001 mm. -/
theorem build_pcb_wire_degenerate_entries :
    (∀ a b : Pt, distSq (flipY a) (flipY b) ≤ 1 →
        edgesOf (Seg.line a b) = []) ∧
    (∀ a b m : Pt, collinear (flipY a) (flipY m) (flipY b) →
        edgesOf (Seg.arc a b m) =
          if distSq (flipY a) (flipY b) > 1 then
            [Edge.line (flipY a) (flipY b)]
          else []) := by
  constructor
  · intro a b h
    simp only [edgesOf]
    rw [if_neg (by omega)]
  · intro a b m h
    simp only [edgesOf, arcToShape, if_pos h]

/-- C10 witness: a 0.001 mm long line entry is dropped, and a collinear arc
entry falls back to the straight line between its endpoints. -/
theorem build_pcb_wire_degenerate_entries_witness :
    edgesOf (Seg.line (0, 0) (0, 1)) = [] ∧
    edgesOf (Seg.arc (0, 0) (0, 2000) (0, 1000)) =
      [Edge.line (0, 0) (0, -2000)] := by
  constructor
  · exact build_pcb_wire_degenerate_entries.1 (0, 0) (0, 1) (by decide)
  · rw [build_pcb_wire_degenerate_entries.2 (0, 0) (0, 2000) (0, 1000) (by decide)]
    decide

/-- C9: `transform_local_to_global` preserves the distance of a
footprint-local point from the footprint origin for every rotation angle:
the result is a proper rotation about `(fp_x, fp_y)` followed by that
translation. -/
theorem transform_preserves_radius :
    ∀ lx ly fp_x fp_y fp_rot_deg : ℝ,
      ((transform_local_to_global lx ly fp_x fp_y fp_rot_deg).1 - fp_x) ^ 2 +
        ((transform_local_to_global lx ly fp_x fp_y fp_rot_deg).2 - fp_y) ^ 2 =
      lx ^ 2 + ly ^ 2 := by
  intro lx ly fp_x fp_y d
  unfold transform_local_to_global
  linear_combination (lx ^ 2 + ly ^ 2) * Real.sin_sq_add_cos_sq (degToRad d)

/-- C3: for every mounting-hole coordinate, the bottom case standoff post,
its blind heat-set insert hole and the top case screw clearance hole are
cylinders whose vertical axes all pass through the same planar point
`(mx, -my)`. -/
theorem standoff_screw_alignment :
    ∀ mx my : ℝ,
      (BottomCase.standoffPost mx my).axisXY = (mx, -my) ∧
      (BottomCase.insertHole mx my).axisXY = (mx, -my) ∧
      (TopCase.screwHole mx my).axisXY = (mx, -my) :=
  fun _ _ => ⟨rfl, rfl, rfl⟩

/-- C4: the two case scripts compute the same outer boundary — both offset
the same board outline wire by the same shared amount
`TOLERANCE + WALL_THICKNESS`, so the outer profiles coincide for every
outline region. -/
theorem outer_profiles_agree :
    BottomCase.outerOffset = TOLERANCE + WALL_THICKNESS ∧
    TopCase.outerOffset = TOLERANCE + WALL_THICKNESS ∧
    bottomCaseModelWire = topCaseModelWire ∧
    ∀ K : Set P2, BottomCase.outer_face K = TopCase.outer_face K :=
  ⟨rfl, rfl, rfl, fun _ => rfl⟩

/-- C2: the offset profiles are strictly nested — both offsets are
positive, the outer exceeds the inner by exactly `WALL_THICKNESS`, the
inner region is contained in the outer region for every outline, and the
bottom case wall ring and top case lip ring are exactly the set difference
of the outer face minus the inner face. -/
theorem nested_profiles :
    BottomCase.innerOffset = 0.5 ∧
    BottomCase.outerOffset = 2.7 ∧
    0 < BottomCase.innerOffset ∧
    0 < BottomCase.outerOffset ∧
    BottomCase.outerOffset - BottomCase.innerOffset = WALL_THICKNESS ∧
    (∀ K : Set P2, BottomCase.inner_face K ⊆ BottomCase.outer_face K) ∧
    (∀ K : Set P2,
      BottomCase.wall_face K = BottomCase.outer_face K \ BottomCase.inner_face K) ∧
    (∀ K : Set P2,
      TopCase.lip_face K = TopCase.outer_face K \ TopCase.inner_face K) ∧
    TopCase.innerOffset = BottomCase.innerOffset ∧
    TopCase.outerOffset = BottomCase.outerOffset := by
  refine ⟨?_, ?_, ?_, ?_, ?_, ?_, fun _ => rfl, fun _ => rfl, rfl, rfl⟩
  · norm_num [BottomCase.innerOffset, TOLERANCE]
  · norm_num [BottomCase.outerOffset, TOLERANCE, WALL_THICKNESS]
  · norm_num [BottomCase.innerOffset, TOLERANCE]
  · norm_num [BottomCase.outerOffset, TOLERANCE, WALL_THICKNESS]
  · norm_num [BottomCase.outerOffset, BottomCase.innerOffset, TOLERANCE]
  · intro K p hp
    obtain ⟨q, hq, hle⟩ := hp
    refine ⟨q, hq, hle.trans ?_⟩
    norm_num [BottomCase.innerOffset, BottomCase.outerOffset, TOLERANCE, WALL_THICKNESS]

/-- C8: the build script creates exactly three document objects — the PCB
reference model, the top case and the bottom case, in that order, each
built by its own builder from the same fixed outline wire — and the export
loop writes one STEP file per document object. -/
theorem build_script_three_parts :
    buildParts.length = 3 ∧
    docObjectNames = ["Chocofi_PCB", "Chocofi_TopCase", "Chocofi_BottomCase"] ∧
    (buildParts.map fun e => e.2.1) =
      [Builder.pcb, Builder.topCase, Builder.bottomCase] ∧
    exportedSteps =
      ["Chocofi_PCB.step", "Chocofi_TopCase.step", "Chocofi_BottomCase.step"] ∧
    exportedSteps.length = docObjectNames.length ∧
    ∀ b : Builder, builderOutline b = build_pcb_wire SEGMENTS := by
  refine ⟨rfl, rfl, rfl, ?_, rfl, ?_⟩
  · decide
  · intro b
    cases b <;> rfl

/-- C1: evaluation of the snap-fit mating at the failing configuration —
with both parts at the nominal Z positions stated in the two module
docstrings (PCB top at `z = 0`), the top case solid and the bottom case
ridge are not disjoint: the point 2 mm outside the outline at `z = -1`
lies both in the top case lip and in the bottom case ridge, exhibited at
the concrete outline region `{(0, 0)}`. -/
theorem ridge_lip_interference :
    ((2 : ℝ), (0 : ℝ), (-1 : ℝ)) ∈ TopCase.lip {((0 : ℝ), (0 : ℝ))} ∧
    ((2 : ℝ), (0 : ℝ), (-1 : ℝ)) ∈ BottomCase.ridge_solid {((0 : ℝ), (0 : ℝ))} ∧
    ¬ Disjoint (TopCase.caseBody {((0 : ℝ), (0 : ℝ))})
        (BottomCase.ridge_solid {((0 : ℝ), (0 : ℝ))}) := by
  have hlip : ((2 : ℝ), (0 : ℝ), (-1 : ℝ)) ∈ TopCase.lip {((0 : ℝ), (0 : ℝ))} := by
    simp only [TopCase.lip, TopCase.lip_face, TopCase.outer_face, TopCase.inner_face,
      TopCase.outerOffset, TopCase.innerOffset, extrudeZ, offsetRegion,
      Set.mem_setOf_eq, Set.mem_diff, Set.mem_singleton_iff]
    refine ⟨⟨⟨(0, 0), rfl, by norm_num [TOLERANCE, WALL_THICKNESS]⟩, ?_⟩, ?_, ?_⟩
    · rintro ⟨q, rfl, hle⟩
      norm_num [TOLERANCE] at hle
    · norm_num [TOP_LIP_HEIGHT, min_def, max_def]
    · norm_num [TOP_LIP_HEIGHT, min_def, max_def]
  have hridge :
      ((2 : ℝ), (0 : ℝ), (-1 : ℝ)) ∈ BottomCase.ridge_solid {((0 : ℝ), (0 : ℝ))} := by
    simp only [BottomCase.ridge_solid, BottomCase.ridge_face, BottomCase.outer_face,
      BottomCase.ridge_inner_face, BottomCase.outerOffset, BottomCase.z_walls_top,
      translateV, extrudeZ, offsetRegion, Set.mem_setOf_eq, Set.mem_diff,
      Set.mem_singleton_iff]
    refine ⟨⟨⟨(0, 0), rfl, by norm_num [TOLERANCE, WALL_THICKNESS]⟩, ?_⟩, ?_, ?_⟩
    · rintro ⟨q, rfl, hle⟩
      norm_num [TOLERANCE, WALL_THICKNESS, RIDGE_WIDTH] at hle
    · norm_num [PCB_THICKNESS, RIDGE_HEIGHT, min_def, max_def]
    · norm_num [PCB_THICKNESS, RIDGE_HEIGHT, min_def, max_def]
  refine ⟨hlip, hridge, ?_⟩
  rw [Set.not_disjoint_iff]
  exact ⟨_, Set.mem_union_right _ hlip, hridge⟩

lemma shiftedCenteredBox (sx sy size h : ℝ) :
    translateV (-sx, -(-sy), -(0 : ℝ))
        (centeredBox (sx, -sy) size (-1) (h + 1)) =
      makeBox size size (h + 2) (-(size / 2), -(size / 2), 0 - 1) := by
  ext p
  simp only [translateV, centeredBox, makeBox, Set.mem_setOf_eq]
  constructor
  · rintro ⟨h1, h2, h3, h4, h5, h6⟩
    exact ⟨by linarith, by linarith, by linarith, by linarith, by linarith, by linarith⟩
  · rintro ⟨h1, h2, h3, h4, h5, h6⟩
    exact ⟨by linarith, by linarith, by linarith, by linarith, by linarith, by linarith⟩

/-- C5: for every switch-table entry `(sx, sy, rot)` the aperture cut from
the top plate is the square box of side `SWITCH_PLATE_CUTOUT` centred at
`(sx, -sy)`, turned by `-rot` degrees about its own centre, spanning from
1 mm below the plate bottom to 1 mm above its top; and the cut loop
subtracts exactly one such aperture per table entry. -/
theorem switch_apertures :
    (∀ sx sy rot : ℝ,
      make_plate_cutout sx sy rot 0 TOP_PLATE_THICKNESS SWITCH_PLATE_CUTOUT =
        switchApertureSpec sx sy rot) ∧
    (∀ (base : Set P3) (tbl : List (ℝ × ℝ × ℝ)),
      switchCutLoop base tbl =
        base \ {p | ∃ e ∈ tbl,
          p ∈ make_plate_cutout e.1 e.2.1 e.2.2 0
                TOP_PLATE_THICKNESS SWITCH_PLATE_CUTOUT}) := by
  constructor
  · intro sx sy rot
    unfold make_plate_cutout switchApertureSpec rotateAboutZ
    dsimp only
    rw [shiftedCenteredBox]
    by_cases h : rot = 0
    · subst h
      rw [if_neg (by simp), neg_zero, rotateZdeg_zero]
    · rw [if_pos h]
  · intro base tbl
    induction tbl generalizing base with
    | nil => simp [switchCutLoop]
    | cons a t ih =>
        simp only [switchCutLoop, List.foldl_cons] at ih ⊢
        rw [ih]
        ext p
        simp only [Set.mem_diff, Set.mem_setOf_eq, List.mem_cons]
        constructor
        · rintro ⟨⟨hb, hna⟩, hnt⟩
          refine ⟨hb, ?_⟩
          rintro ⟨e, he | he, hme⟩
          · subst he
            exact hna hme
          · exact hnt ⟨e, he, hme⟩
        · rintro ⟨hb, hn⟩
          refine ⟨⟨hb, fun hme => hn ⟨a, Or.inl rfl, hme⟩⟩, fun hx => ?_⟩
          obtain ⟨e, he, hme⟩ := hx
          exact hn ⟨e, Or.inr he, hme⟩
